import Mathlib

/-!
Shallow embedding of the ECPay one-time-buying Flask application
(files `app/models.py` and `app/routes/ecpay.py`).

Conventions of the embedding:
* datetimes are natural numbers (seconds since the epoch); the `utcnow()`
  clock becomes an explicit `now : Nat` parameter;
* the relational store is a `DB` structure holding the two tables as lists,
  and `Query.filter_by(...).first()` is `List.find?`;
* the external ECPay SDK checksum is an oracle `computeMac` passed in;
* a Python value that may be `None` is an `Option`;
* `db.session.commit()` success or failure is an explicit `Bool` parameter,
  and a failed commit leaves the store unchanged (rollback);
* filesystem presence (`Path.exists() and Path.is_file()`) is an oracle
  `fileExists : String → Bool`.
-/

namespace Ecpay

/-- The `Order` row of `app/models.py` (table `orders`). -/
structure Order where
  id : Nat
  merchant_trade_no : String
  app_code : String
  product_code : Option String
  item_name : String
  amount : Int
  status : String
  resume_url : Option String
  payload_json : Option String
  checkmac_valid : Bool
  rtn_code : Option Int
  rtn_msg : Option String
  payment_type : Option String
  ecpay_trade_no : Option String
  is_simulated : Bool
  created_at : Nat
  paid_at : Option Nat
  delivered_at : Option Nat
deriving Repr, DecidableEq

/-- The `DownloadToken` row of `app/models.py` (table `download_tokens`). -/
structure DownloadToken where
  token : String
  order_id : Nat
  file_path : String
  created_at : Nat
  expires_at : Nat
deriving Repr, DecidableEq

/-- The relational store: the two persisted tables. -/
structure DB where
  orders : List Order
  tokens : List DownloadToken
deriving Repr, DecidableEq

/-- Python truthiness on an optional string (`None` and `""` are falsy):
models the idiom `value or d`. -/
def orDefault (v : Option String) (d : String) : String :=
  match v with
  | none => d
  | some s => if s = "" then d else s

/-- Python `str.strip()`: remove leading and trailing whitespace. Defined by
structural recursion over the character list so that proofs can evaluate it. -/
def pyStrip (s : String) : String :=
  String.mk (((s.toList.dropWhile Char.isWhitespace).reverse.dropWhile
    Char.isWhitespace).reverse)

/-- Python `str.upper()` (ASCII). -/
def pyUpper (s : String) : String :=
  String.mk (s.toList.map Char.toUpper)

/-- Python string slicing `s[:n]`. -/
def pyTake (s : String) (n : Nat) : String :=
  String.mk (s.toList.take n)

/-- Decimal value of a digit list (most significant first). -/
def digitsVal (l : List Char) : Nat :=
  l.foldl (fun n c => n * 10 + (c.toNat - 48)) 0

/-- Python `int(s)` on an optionally sign-prefixed decimal string; `none`
models the `ValueError` raised on anything else. -/
def pyToInt? (s : String) : Option Int :=
  match s.toList with
  | [] => none
  | c :: rest =>
    if c = '-' then
      if rest.isEmpty then none
      else if rest.all Char.isDigit then some (-(digitsVal rest : Int)) else none
    else if c = '+' then
      if rest.isEmpty then none
      else if rest.all Char.isDigit then some (digitsVal rest : Int) else none
    else
      if (c :: rest).all Char.isDigit then some (digitsVal (c :: rest) : Int)
      else none

/-- Models the idiom `(form.get(k) or "").strip() or None`. -/
def stripOrNone (v : Option String) : Option String :=
  let t := pyStrip (orDefault v "")
  if t = "" then none else some t

/-- The derived `is_paid` property of `Order` (models.py lines 50-53):
`self.status == "paid" and bool(self.checkmac_valid)`. -/
def Order.is_paid (o : Order) : Bool :=
  o.status == "paid" && o.checkmac_valid

/-- Models `_require_cfg` (ecpay.py lines 39-43): a missing (`None`) or
falsy (empty) configuration value raises `RuntimeError`. -/
def require_cfg (v : Option String) (key : String) : Except String String :=
  match v with
  | none => .error ("Missing config: " ++ key)
  | some s => if s = "" then .error ("Missing config: " ++ key) else .ok s

/-- The webhook form fields read by `notify_return` (a missing field is `none`). -/
structure WebhookForm where
  MerchantTradeNo : Option String := none
  CheckMacValue : Option String := none
  RtnCode : Option String := none
  RtnMsg : Option String := none
  PaymentType : Option String := none
  TradeNo : Option String := none
  SimulatePaid : Option String := none
deriving Repr, DecidableEq

/-- Models `verify_checkmac` (ecpay.py lines 80-85): the submitted
`CheckMacValue`, stripped, must be nonempty and equal case-insensitively to
the SDK-computed value. -/
def verify_checkmac (computeMac : WebhookForm → String) (form : WebhookForm) : Bool :=
  let sent := pyStrip (orDefault form.CheckMacValue "")
  if sent = "" then false
  else pyUpper (computeMac form) == pyUpper sent

/-- Models `int((form.get("RtnCode") or "0").strip() or 0)` (ecpay.py line 245);
`none` models the `ValueError` raised by `int` on a malformed string. -/
def parse_rtn_code (v : Option String) : Option Int :=
  let t := pyStrip (orDefault v "0")
  if t = "" then some 0 else pyToInt? t

/-- Models `Order.query.filter_by(merchant_trade_no=mtn).first()`. -/
def findOrder (db : DB) (mtn : String) : Option Order :=
  db.orders.find? (fun o => o.merchant_trade_no == mtn)

/-- Models `Order.query.get(oid)`. -/
def findOrderById (db : DB) (oid : Nat) : Option Order :=
  db.orders.find? (fun o => o.id == oid)

/-- Models `DownloadToken.query.filter_by(token=tok).first()`. -/
def findToken (db : DB) (tok : String) : Option DownloadToken :=
  db.tokens.find? (fun t => t.token == tok)

/-- Committing an update of the ORM object found by
`filter_by(merchant_trade_no=mtn).first()` rewrites that first matching row. -/
def replaceOrder (mtn : String) (o' : Order) : List Order → List Order
  | [] => []
  | o :: rest =>
    if o.merchant_trade_no == mtn then o' :: rest
    else o :: replaceOrder mtn o' rest

/-- The field updates applied to the matched order by `notify_return`
(ecpay.py lines 244-257). -/
def notify_update (order : Order) (now : Nat) (form : WebhookForm)
    (rtn_code : Int) : Order :=
  let o1 : Order :=
    { order with
      rtn_code := some rtn_code
      rtn_msg := stripOrNone form.RtnMsg
      payment_type := stripOrNone form.PaymentType
      ecpay_trade_no := stripOrNone form.TradeNo
      is_simulated := (pyStrip (orDefault form.SimulatePaid "0") == "1")
      checkmac_valid := true }
  if rtn_code = 1 then { o1 with status := "paid", paid_at := some now }
  else { o1 with status := "failed" }

/-- Models `notify_return`, POST /ecpay/return (ecpay.py lines 223-266).
The result `none` models an unhandled exception (malformed `RtnCode`). -/
def notify_return (computeMac : WebhookForm → String) (commitOk : Bool) (now : Nat)
    (form : WebhookForm) (db : DB) : Option (String × DB) :=
  let merchant_trade_no := pyStrip (orDefault form.MerchantTradeNo "")
  if merchant_trade_no = "" then some ("0|Missing MerchantTradeNo", db)
  else if !verify_checkmac computeMac form then some ("0|CheckMacValue Error", db)
  else
    match findOrder db merchant_trade_no with
    | none => some ("0|Order Not Found", db)
    | some order =>
      match parse_rtn_code form.RtnCode with
      | none => none
      | some rtn_code =>
        let order2 := notify_update order now form rtn_code
        if commitOk then
          some ("1|OK", { db with orders := replaceOrder merchant_trade_no order2 db.orders })
        else some ("0|DB Error", db)

/-- Two-digit zero-padded decimal: models the Python format `"%02d"` on 0..99. -/
def two_digit (n : Nat) : String :=
  if n < 10 then "0" ++ toString n else toString n

/-- Models `gen_merchant_trade_no` (ecpay.py lines 91-97): the configured
prefix is stripped, filtered to its alphanumeric characters, cut to 4
characters, concatenated with the epoch-second timestamp and a two-digit
random suffix, and the result is cut to 20 characters. -/
def gen_merchant_trade_no (prefix_cfg : Option String) (epoch : Nat)
    (rand : Nat) : String :=
  let p := pyStrip (orDefault prefix_cfg "NO")
  let p := String.mk ((p.toList.filter Char.isAlphanum).take 4)
  pyTake (p ++ toString epoch ++ two_digit (rand % 100)) 20

/-- The trade-number shape in the words of the spec, for comparison with
`gen_merchant_trade_no`: the configured prefix, then epoch seconds, then the
2-digit random suffix, truncated to 20 characters. -/
def spec_trade_no (prefix_str : String) (epoch : Nat) (rand : Nat) : String :=
  pyTake (prefix_str ++ toString epoch ++ two_digit (rand % 100)) 20

/-- The configuration keys consumed by the ecpay routes (a missing
environment variable is `none`). -/
structure Config where
  ECPAY_MERCHANT_ID : Option String := none
  ECPAY_SERVICE_URL : Option String := none
  ECPAY_NOTIFY_URL : Option String := none
  ECPAY_ORDER_RESULT_URL : Option String := none
  ECPAY_CLIENT_BACK_URL : Option String := none
  ECPAY_CHOOSE_PAYMENT : Option String := none
  ECPAY_SDK_PATH : Option String := none
  ECPAY_HASH_KEY : Option String := none
  ECPAY_HASH_IV : Option String := none
  APP_CODE : Option String := none
  APP_TRADE_NO_PREFIX : Option String := none
  GENERATED_FILES_PATH : Option String := none
deriving Repr, DecidableEq

/-- Models the configuration requirements of `_load_ecpay_sdk` and
`_sdk_client` (ecpay.py lines 49-68): `ECPAY_SDK_PATH` must be set and the
file must exist, and merchant id / hash key / hash iv must be set. -/
def sdk_client_ok (cfg : Config) (sdkPathExists : String → Bool) :
    Except String Unit :=
  match require_cfg cfg.ECPAY_SDK_PATH "ECPAY_SDK_PATH" with
  | .error e => .error e
  | .ok p =>
    if !sdkPathExists p then .error ("ECPAY_SDK_PATH not found: " ++ p)
    else
      match require_cfg cfg.ECPAY_MERCHANT_ID "ECPAY_MERCHANT_ID" with
      | .error e => .error e
      | .ok _ =>
        match require_cfg cfg.ECPAY_HASH_KEY "ECPAY_HASH_KEY" with
        | .error e => .error e
        | .ok _ =>
          match require_cfg cfg.ECPAY_HASH_IV "ECPAY_HASH_IV" with
          | .error e => .error e
          | .ok _ => .ok ()

/-- The checkout form fields read by `create`; `extra_json` stands for
`json.dumps` of the remaining form fields, used as the payload fallback. -/
structure CreateForm where
  amount : Option String := none
  item_name : Option String := none
  resume_url : Option String := none
  payload_json : Option String := none
  extra_json : String := "\x7b\x7d"
deriving Repr, DecidableEq

/-- Models `int((request.form.get("amount") or "50").strip() or 50)`
(ecpay.py line 166); `none` models the `ValueError` on a malformed string. -/
def parse_amount (v : Option String) : Option Int :=
  let t := pyStrip (orDefault v "50")
  if t = "" then some 50 else pyToInt? t

/-- Models `_auto_post_html` (ecpay.py lines 100-118). -/
def auto_post_html (action_url : String) (params : List (String × String)) :
    String :=
  let inputs := String.intercalate "\n"
    (params.map (fun kv =>
      "<input type=\"hidden\" name=\"" ++ kv.1 ++ "\" value=\"" ++ kv.2 ++ "\"/>"))
  "<!doctype html>\n<html lang=\"zh-Hant\">\n<head>\n  <meta charset=\"utf-8\"/>\n" ++
  "  <meta name=\"viewport\" content=\"width=device-width,initial-scale=1\"/>\n" ++
  "  <title>前往付款…</title>\n</head>\n<body>\n" ++
  "  <p style=\"font-family:system-ui,-apple-system,Segoe UI,Roboto;padding:16px;\">正在前往綠界付款頁…</p>\n" ++
  "  <form id=\"ecpayForm\" method=\"POST\" action=\"" ++ action_url ++ "\">\n    " ++
  inputs ++
  "\n  </form>\n  <script>document.getElementById(\x27ecpayForm\x27).submit();</script>\n</body>\n</html>"

/-- Outcome of the `create` endpoint: a fatal `RuntimeError` (configuration),
an unhandled exception (malformed amount), or the redirect page. -/
inductive CreateResult where
  | cfgError (msg : String)
  | exn
  | page (html : String)
deriving Repr, DecidableEq

/-- Models `create`, POST /ecpay/create (ecpay.py lines 151-217). The order
row is added and committed before the SDK client is loaded to compute the
`CheckMacValue`, so a configuration error raised while loading the SDK occurs
after persistence. Clock and randomness are the explicit inputs `epoch`,
`trade_date`, `rand`; `nextId` is the autoincrement id; the order commit
itself is assumed to succeed. -/
def create (cfg : Config) (sdkPathExists : String → Bool)
    (computeMac : List (String × String) → String)
    (epoch : Nat) (rand : Nat) (trade_date : String) (nextId : Nat)
    (form : CreateForm) (db : DB) : CreateResult × DB :=
  match require_cfg cfg.ECPAY_MERCHANT_ID "ECPAY_MERCHANT_ID" with
  | .error e => (.cfgError e, db)
  | .ok merchant_id =>
  match require_cfg cfg.ECPAY_SERVICE_URL "ECPAY_SERVICE_URL" with
  | .error e => (.cfgError e, db)
  | .ok service_url =>
  match require_cfg cfg.ECPAY_NOTIFY_URL "ECPAY_NOTIFY_URL" with
  | .error e => (.cfgError e, db)
  | .ok return_url =>
  match require_cfg cfg.ECPAY_ORDER_RESULT_URL "ECPAY_ORDER_RESULT_URL" with
  | .error e => (.cfgError e, db)
  | .ok order_result_url =>
  match require_cfg cfg.ECPAY_CLIENT_BACK_URL "ECPAY_CLIENT_BACK_URL" with
  | .error e => (.cfgError e, db)
  | .ok client_back_url =>
  let choose_payment := pyStrip (orDefault cfg.ECPAY_CHOOSE_PAYMENT "ALL")
  let app_code := pyStrip (cfg.APP_CODE.getD "")
  match parse_amount form.amount with
  | none => (.exn, db)
  | some amount =>
  let item_name := pyStrip (orDefault form.item_name "One-time purchase")
  let resume_url :=
    let r := pyStrip (orDefault form.resume_url "")
    if r = "" then client_back_url else r
  let payload_json := orDefault form.payload_json form.extra_json
  let trade_no := gen_merchant_trade_no cfg.APP_TRADE_NO_PREFIX epoch rand
  let order : Order :=
    { id := nextId
      merchant_trade_no := trade_no
      app_code := app_code
      product_code := none
      item_name := item_name
      amount := amount
      status := "created"
      resume_url := some resume_url
      payload_json := some payload_json
      checkmac_valid := false
      rtn_code := none
      rtn_msg := none
      payment_type := none
      ecpay_trade_no := none
      is_simulated := false
      created_at := epoch
      paid_at := none
      delivered_at := none }
  let db1 : DB := { db with orders := db.orders ++ [order] }
  let params : List (String × String) :=
    [("MerchantID", merchant_id),
     ("MerchantTradeNo", trade_no),
     ("MerchantTradeDate", trade_date),
     ("PaymentType", "aio"),
     ("TotalAmount", toString amount),
     ("TradeDesc", "One-time payment"),
     ("ItemName", item_name),
     ("ReturnURL", return_url),
     ("OrderResultURL", order_result_url),
     ("ClientBackURL", client_back_url),
     ("ChoosePayment", choose_payment),
     ("EncryptType", "1")]
  match sdk_client_ok cfg sdkPathExists with
  | .error e => (.cfgError e, db1)
  | .ok _ =>
  (.page (auto_post_html service_url (params ++ [("CheckMacValue", computeMac params)])), db1)

/-- Accumulator pass behind `latestTokenFor`; keeps the first-seen token among
ties on `created_at`, takes a strictly later one. -/
def latestTokenAux (oid : Nat) :
    Option DownloadToken → List DownloadToken → Option DownloadToken
  | acc, [] => acc
  | none, t :: rest =>
    if t.order_id == oid then latestTokenAux oid (some t) rest
    else latestTokenAux oid none rest
  | some a, t :: rest =>
    if t.order_id == oid then
      (if a.created_at < t.created_at then latestTokenAux oid (some t) rest
       else latestTokenAux oid (some a) rest)
    else latestTokenAux oid (some a) rest

/-- Models `DownloadToken.query.filter_by(order_id=oid)
.order_by(DownloadToken.created_at.desc()).first()`. -/
def latestTokenFor (db : DB) (oid : Nat) : Option DownloadToken :=
  latestTokenAux oid none db.tokens

/-- Models `_create_or_get_token` (ecpay.py lines 121-144); `newToken` stands
for `secrets.token_urlsafe(32)`, and the token-store commits are assumed to
succeed. -/
def create_or_get_token (newToken : String) (now : Nat) (ttl_hours : Nat)
    (order : Order) (file_path : String) (db : DB) : DownloadToken × DB :=
  let minted : DownloadToken :=
    { token := newToken
      order_id := order.id
      file_path := file_path
      created_at := now
      expires_at := now + ttl_hours * 3600 }
  match latestTokenFor db order.id with
  | some dt =>
    if now < dt.expires_at then
      if dt.file_path ≠ file_path then
        ({ dt with file_path := file_path },
         { db with tokens := db.tokens.map (fun t =>
            if t.token == dt.token then { t with file_path := file_path } else t) })
      else (dt, db)
    else (minted, { db with tokens := db.tokens ++ [minted] })
  | none => (minted, { db with tokens := db.tokens ++ [minted] })

/-- Rendered outcome of the `order_result` endpoint. -/
inductive ResultPage where
  | cfgError (msg : String)
  | missing
  | notFound (mtn : String)
  | pending
  | failedPage
  | paidPage (download_url : Option String)
deriving Repr, DecidableEq

/-- Models `order_result`, GET|POST /ecpay/order_result (ecpay.py lines
272-342). The `delivered_at` stamp commit may fail (`commitDelivered =
false`): it is rolled back and swallowed. The download link is represented
by the token string it embeds. -/
def order_result (cfg : Config) (fileExists : String → Bool) (newToken : String)
    (now : Nat) (commitDelivered : Bool) (mtn_raw : Option String) (db : DB) :
    ResultPage × DB :=
  let mtn := pyStrip (orDefault mtn_raw "")
  match require_cfg cfg.ECPAY_CLIENT_BACK_URL "ECPAY_CLIENT_BACK_URL" with
  | .error e => (.cfgError e, db)
  | .ok _ =>
  if mtn = "" then (.missing, db)
  else
    match findOrder db mtn with
    | none => (.notFound mtn, db)
    | some order =>
      if !order.is_paid then
        if order.status = "created" then (.pending, db) else (.failedPage, db)
      else
        let gen_dir := cfg.GENERATED_FILES_PATH.getD "/opt/app/generated"
        let file_path := gen_dir ++ "/" ++ order.merchant_trade_no ++ ".docx"
        let urlAndDb :=
          if fileExists file_path then
            let r := create_or_get_token newToken now 24 order file_path db
            (some r.1.token, r.2)
          else ((none : Option String), db)
        let stamped : Order := { order with delivered_at := some now }
        let db2 :=
          if order.delivered_at = none then
            if commitDelivered then
              { urlAndDb.2 with orders := replaceOrder mtn stamped urlAndDb.2.orders }
            else urlAndDb.2
          else urlAndDb.2
        (.paidPage urlAndDb.1, db2)

/-- Outcome of the `download` endpoint: an HTTP error status or a streamed
attachment. -/
inductive DownloadResult where
  | err (code : Nat)
  | sendFile (path : String) (filename : String)
deriving Repr, DecidableEq

/-- Models `download`, GET /ecpay/download/<token> (ecpay.py lines 348-368). -/
def download (fileExists : String → Bool) (now : Nat) (tok : String) (db : DB) :
    DownloadResult :=
  match findToken db tok with
  | none => .err 404
  | some dt =>
    if dt.expires_at ≤ now then .err 410
    else
      match findOrderById db dt.order_id with
      | none => .err 403
      | some order =>
        if !order.is_paid then .err 403
        else if !fileExists dt.file_path then .err 404
        else .sendFile dt.file_path (order.merchant_trade_no ++ ".docx")

/-! ### Sample data for concrete witnesses -/

/-- A sample order in `created` status. -/
def sampleOrderCreated : Order :=
  { id := 1, merchant_trade_no := "CT170000000007", app_code := "app",
    product_code := none, item_name := "Widget", amount := 100,
    status := "created", resume_url := none, payload_json := none,
    checkmac_valid := false, rtn_code := none, rtn_msg := none,
    payment_type := none, ecpay_trade_no := none, is_simulated := false,
    created_at := 5, paid_at := none, delivered_at := none }

/-- A sample paid order (webhook already applied). -/
def sampleOrderPaid : Order :=
  { sampleOrderCreated with
    id := 2, merchant_trade_no := "CT2",
    status := "paid", checkmac_valid := true, rtn_code := some 1,
    paid_at := some 7 }

/-- A store holding the single created order. -/
def sampleDB : DB := { orders := [sampleOrderCreated], tokens := [] }

/-- A webhook form for a successful payment of the sample order. -/
def sampleFormPaid : WebhookForm :=
  { MerchantTradeNo := some "CT170000000007", CheckMacValue := some "mac",
    RtnCode := some "1", RtnMsg := some " OK ", PaymentType := some "Credit",
    TradeNo := some "E1", SimulatePaid := some "0" }

/-- The SDK oracle used by witnesses (a constant checksum). -/
def sampleMac : WebhookForm → String := fun _ => "MAC"

/-! ### General lemmas about the store operations -/

/-- Replacing the first row matched by a `find?` makes the replacement the
first match, provided the replacement still satisfies the predicate. -/
theorem find?_replaceOrder (mtn : String) (o' : Order) (l : List Order) (o : Order)
    (h' : (o'.merchant_trade_no == mtn) = true)
    (hfind : l.find? (fun x => x.merchant_trade_no == mtn) = some o) :
    (replaceOrder mtn o' l).find? (fun x => x.merchant_trade_no == mtn) = some o' := by
  induction l with
  | nil => simp [List.find?] at hfind
  | cons a rest ih =>
    by_cases ha : (a.merchant_trade_no == mtn) = true
    · simp [replaceOrder, ha, List.find?, h']
    · have ha' : (a.merchant_trade_no == mtn) = false := by
        cases hb : (a.merchant_trade_no == mtn)
        · rfl
        · exact absurd hb ha
      rw [List.find?_cons_of_neg _ (by simp [ha'])] at hfind
      simp only [replaceOrder, ha', if_false, Bool.false_eq_true]
      rw [List.find?_cons_of_neg _ (by simp [ha'])]
      exact ih hfind

/-- The update applied by the webhook handler keeps the trade number. -/
theorem notify_update_merchant_trade_no (o : Order) (now : Nat) (f : WebhookForm)
    (r : Int) : (notify_update o now f r).merchant_trade_no = o.merchant_trade_no := by
  unfold notify_update
  by_cases h : r = 1 <;> simp [h]

/-- The update applied by the webhook handler always sets the
signature-valid flag. -/
theorem notify_update_checkmac_valid (o : Order) (now : Nat) (f : WebhookForm)
    (r : Int) : (notify_update o now f r).checkmac_valid = true := by
  unfold notify_update
  by_cases h : r = 1 <;> simp [h]

/-- The update applied by the webhook handler records the return code. -/
theorem notify_update_rtn_code (o : Order) (now : Nat) (f : WebhookForm)
    (r : Int) : (notify_update o now f r).rtn_code = some r := by
  unfold notify_update
  by_cases h : r = 1 <;> simp [h]

/-- With return code 1 the update sets `paid` and stamps `paid_at`. -/
theorem notify_update_paid (o : Order) (now : Nat) (f : WebhookForm) (r : Int)
    (h : r = 1) :
    (notify_update o now f r).status = "paid" ∧
    (notify_update o now f r).paid_at = some now := by
  subst h
  unfold notify_update
  simp

/-- With any other return code the update sets `failed` and does not touch
`paid_at`. -/
theorem notify_update_failed (o : Order) (now : Nat) (f : WebhookForm) (r : Int)
    (h : r ≠ 1) :
    (notify_update o now f r).status = "failed" ∧
    (notify_update o now f r).paid_at = o.paid_at := by
  unfold notify_update
  simp [h]

/-- The webhook handler on a fully validated notification: commit success
acknowledges `1|OK` and rewrites the matched row; commit failure rolls back
and reports `0|DB Error`. -/
theorem notify_return_eq_of_valid (computeMac : WebhookForm → String)
    (commitOk : Bool) (now : Nat) (form : WebhookForm) (db : DB) (order : Order)
    (rtn_code : Int)
    (hmtn : pyStrip (orDefault form.MerchantTradeNo "") ≠ "")
    (hmac : verify_checkmac computeMac form = true)
    (hord : findOrder db (pyStrip (orDefault form.MerchantTradeNo "")) = some order)
    (hrtn : parse_rtn_code form.RtnCode = some rtn_code) :
    notify_return computeMac commitOk now form db =
      if commitOk then
        some ("1|OK",
          { db with
            orders := replaceOrder (pyStrip (orDefault form.MerchantTradeNo ""))
              (notify_update order now form rtn_code) db.orders })
      else some ("0|DB Error", db) := by
  unfold notify_return
  rw [if_neg hmtn]
  simp only [hmac, hord, hrtn, Bool.not_true]
  cases commitOk <;> simp

/-- A blank (missing, empty, or whitespace-only) `RtnCode` parses as 0. -/
theorem parse_rtn_code_blank (v : Option String)
    (h : v = none ∨ ∃ s, v = some s ∧ pyStrip s = "") :
    parse_rtn_code v = some 0 := by
  rcases h with h | ⟨s, hv, hs⟩
  · subst h; decide
  · subst hv
    unfold parse_rtn_code orDefault
    by_cases hse : s = ""
    · subst hse; decide
    · simp [hse, hs]

/-! ### Claims about the webhook handler -/

/-- C1: for a webhook with trade number present, valid signature, and a
matching order, a return code of exactly 1 sets the order status to `paid`,
stamps `paid_at` with the current time, and sets `checkmac_valid`; any other
return code sets the status to `failed`, sets `checkmac_valid`, and leaves
`paid_at` exactly as it was (hence unset for an order whose `paid_at` was
unset). -/
theorem C1_webhook_state_transition
    (computeMac : WebhookForm → String) (now : Nat) (form : WebhookForm)
    (db : DB) (order : Order) (rtn_code : Int)
    (hmtn : pyStrip (orDefault form.MerchantTradeNo "") ≠ "")
    (hmac : verify_checkmac computeMac form = true)
    (hord : findOrder db (pyStrip (orDefault form.MerchantTradeNo "")) = some order)
    (hrtn : parse_rtn_code form.RtnCode = some rtn_code) :
    ∃ db' order',
      notify_return computeMac true now form db = some ("1|OK", db') ∧
      findOrder db' (pyStrip (orDefault form.MerchantTradeNo "")) = some order' ∧
      order'.checkmac_valid = true ∧
      (rtn_code = 1 → order'.status = "paid" ∧ order'.paid_at = some now) ∧
      (rtn_code ≠ 1 →
        order'.status = "failed" ∧ order'.paid_at = order.paid_at) := by
  have heq := notify_return_eq_of_valid computeMac true now form db order rtn_code
    hmtn hmac hord hrtn
  simp only [if_pos rfl, if_true] at heq
  refine ⟨_, notify_update order now form rtn_code, heq, ?_, ?_, ?_, ?_⟩
  · have hpred := List.find?_some hord
    unfold findOrder
    exact find?_replaceOrder _ _ _ order
      (by rw [notify_update_merchant_trade_no]; exact hpred) hord
  · exact notify_update_checkmac_valid order now form rtn_code
  · intro h1; exact notify_update_paid order now form rtn_code h1
  · intro h1; exact notify_update_failed order now form rtn_code h1

/-- Witness for C1: the sample paid webhook at time 777. -/
theorem C1_webhook_state_transition_witness :
    ∃ db' order',
      notify_return sampleMac true 777 sampleFormPaid sampleDB = some ("1|OK", db') ∧
      findOrder db' (pyStrip (orDefault sampleFormPaid.MerchantTradeNo "")) = some order' ∧
      order'.checkmac_valid = true ∧
      ((1 : Int) = 1 → order'.status = "paid" ∧ order'.paid_at = some 777) ∧
      ((1 : Int) ≠ 1 →
        order'.status = "failed" ∧ order'.paid_at = sampleOrderCreated.paid_at) :=
  C1_webhook_state_transition sampleMac 777 sampleFormPaid sampleDB
    sampleOrderCreated 1 (by decide) (by decide) (by decide) (by decide)

/-- C2: the derived `is_paid` predicate holds exactly when the status is the
string `paid` and the signature-valid flag is set. -/
theorem C2_is_paid_iff (o : Order) :
    o.is_paid = true ↔ (o.status = "paid" ∧ o.checkmac_valid = true) := by
  simp [Order.is_paid, Bool.and_eq_true, beq_iff_eq]

/-- A webhook form whose submitted signature will not match the oracle. -/
def sampleFormBadMac : WebhookForm :=
  { sampleFormPaid with CheckMacValue := some "nope" }

/-- A webhook form naming a trade number absent from the store. -/
def sampleFormUnknown : WebhookForm :=
  { sampleFormPaid with MerchantTradeNo := some "ZZ" }

/-- A webhook form with a whitespace-only return code. -/
def sampleFormBlankRtn : WebhookForm :=
  { sampleFormPaid with RtnCode := some "   " }

/-- C3: the webhook validates in order - trade number present, submitted
signature equal case-insensitively to the recomputed one, matching order
exists - answering `0|<reason>` with the store untouched on the first failed
check, and it answers exactly `1|OK` only when every check passed and the
commit succeeded. -/
theorem C3_webhook_validation_order
    (computeMac : WebhookForm → String) (commitOk : Bool) (now : Nat)
    (form : WebhookForm) (db : DB) :
    (pyStrip (orDefault form.MerchantTradeNo "") = "" →
      notify_return computeMac commitOk now form db
        = some ("0|Missing MerchantTradeNo", db)) ∧
    (pyStrip (orDefault form.MerchantTradeNo "") ≠ "" →
      verify_checkmac computeMac form = false →
      notify_return computeMac commitOk now form db
        = some ("0|CheckMacValue Error", db)) ∧
    (pyStrip (orDefault form.MerchantTradeNo "") ≠ "" →
      verify_checkmac computeMac form = true →
      findOrder db (pyStrip (orDefault form.MerchantTradeNo "")) = none →
      notify_return computeMac commitOk now form db
        = some ("0|Order Not Found", db)) ∧
    (verify_checkmac computeMac form = true ↔
      (pyStrip (orDefault form.CheckMacValue "") ≠ "" ∧
        pyUpper (computeMac form)
          = pyUpper (pyStrip (orDefault form.CheckMacValue "")))) ∧
    (∀ resp db', notify_return computeMac commitOk now form db = some (resp, db') →
      resp = "1|OK" →
      commitOk = true ∧ pyStrip (orDefault form.MerchantTradeNo "") ≠ "" ∧
      verify_checkmac computeMac form = true ∧
      ∃ order, findOrder db (pyStrip (orDefault form.MerchantTradeNo ""))
        = some order) := by
  refine ⟨?_, ?_, ?_, ?_, ?_⟩
  · intro h
    unfold notify_return
    rw [if_pos h]
  · intro h hv
    unfold notify_return
    rw [if_neg h]
    simp [hv]
  · intro h hv hf
    unfold notify_return
    rw [if_neg h]
    simp [hv, hf]
  · unfold verify_checkmac
    by_cases hs : pyStrip (orDefault form.CheckMacValue "") = ""
    · simp [hs]
    · simp [hs, beq_iff_eq]
  · intro resp db' heq hresp
    subst hresp
    unfold notify_return at heq
    by_cases h1 : pyStrip (orDefault form.MerchantTradeNo "") = ""
    · rw [if_pos h1] at heq
      have h2 : ("0|Missing MerchantTradeNo" : String) = "1|OK" :=
        congrArg Prod.fst (Option.some.inj heq)
      exact absurd h2 (by decide)
    · rw [if_neg h1] at heq
      by_cases hv : verify_checkmac computeMac form = true
      · rw [hv] at heq
        simp only [Bool.not_true, Bool.false_eq_true, if_false] at heq
        cases hf : findOrder db (pyStrip (orDefault form.MerchantTradeNo "")) with
        | none =>
          rw [hf] at heq
          have h2 : ("0|Order Not Found" : String) = "1|OK" :=
            congrArg Prod.fst (Option.some.inj heq)
          exact absurd h2 (by decide)
        | some order =>
          rw [hf] at heq
          refine ⟨?_, h1, hv, order, rfl⟩
          cases hco : commitOk with
          | true => rfl
          | false =>
            subst hco
            cases hp : parse_rtn_code form.RtnCode with
            | none =>
              rw [hp] at heq
              exact Option.noConfusion heq
            | some r =>
              rw [hp] at heq
              simp only [Bool.false_eq_true, if_false] at heq
              have h2 : ("0|DB Error" : String) = "1|OK" :=
                congrArg Prod.fst (Option.some.inj heq)
              exact absurd h2 (by decide)
      · have hv' : verify_checkmac computeMac form = false := by
          cases hb : verify_checkmac computeMac form
          · rfl
          · exact absurd hb hv
        rw [hv'] at heq
        simp only [Bool.not_false, if_true] at heq
        have h2 : ("0|CheckMacValue Error" : String) = "1|OK" :=
          congrArg Prod.fst (Option.some.inj heq)
        exact absurd h2 (by decide)

/-- Witness for C3: each of the three rejections at a concrete form, each
leaving the store untouched. -/
theorem C3_webhook_validation_order_witness :
    notify_return sampleMac true 0 {} sampleDB
      = some ("0|Missing MerchantTradeNo", sampleDB) ∧
    notify_return sampleMac true 0 sampleFormBadMac sampleDB
      = some ("0|CheckMacValue Error", sampleDB) ∧
    notify_return sampleMac true 0 sampleFormUnknown sampleDB
      = some ("0|Order Not Found", sampleDB) :=
  ⟨(C3_webhook_validation_order sampleMac true 0 {} sampleDB).1 (by decide),
   (C3_webhook_validation_order sampleMac true 0 sampleFormBadMac sampleDB).2.1
     (by decide) (by decide),
   (C3_webhook_validation_order sampleMac true 0 sampleFormUnknown sampleDB).2.2.1
     (by decide) (by decide) (by decide)⟩

/-- C5: on a fully validated webhook whose commit fails, the transaction is
rolled back (stored state unchanged) and the handler answers `0|DB Error`;
the model performs the single commit attempt and nothing else. -/
theorem C5_commit_failure_rollback
    (computeMac : WebhookForm → String) (now : Nat) (form : WebhookForm)
    (db : DB) (order : Order) (rtn_code : Int)
    (hmtn : pyStrip (orDefault form.MerchantTradeNo "") ≠ "")
    (hmac : verify_checkmac computeMac form = true)
    (hord : findOrder db (pyStrip (orDefault form.MerchantTradeNo "")) = some order)
    (hrtn : parse_rtn_code form.RtnCode = some rtn_code) :
    notify_return computeMac false now form db = some ("0|DB Error", db) := by
  have heq := notify_return_eq_of_valid computeMac false now form db order rtn_code
    hmtn hmac hord hrtn
  simpa using heq

/-- Witness for C5 at the sample paid webhook. -/
theorem C5_commit_failure_rollback_witness :
    notify_return sampleMac false 777 sampleFormPaid sampleDB
      = some ("0|DB Error", sampleDB) :=
  C5_commit_failure_rollback sampleMac 777 sampleFormPaid sampleDB
    sampleOrderCreated 1 (by decide) (by decide) (by decide) (by decide)

/-- C9: a validated webhook whose `RtnCode` is missing, empty, or
whitespace-only is not rejected: the return code parses as 0, `rtn_code` is
stored as 0, and the order is marked `failed`, the handler acknowledging
`1|OK`. -/
theorem C9_blank_rtn_code_marks_failed
    (computeMac : WebhookForm → String) (now : Nat) (form : WebhookForm)
    (db : DB) (order : Order)
    (hmtn : pyStrip (orDefault form.MerchantTradeNo "") ≠ "")
    (hmac : verify_checkmac computeMac form = true)
    (hord : findOrder db (pyStrip (orDefault form.MerchantTradeNo "")) = some order)
    (hblank : form.RtnCode = none ∨ ∃ s, form.RtnCode = some s ∧ pyStrip s = "") :
    ∃ db' order',
      notify_return computeMac true now form db = some ("1|OK", db') ∧
      findOrder db' (pyStrip (orDefault form.MerchantTradeNo "")) = some order' ∧
      order'.rtn_code = some 0 ∧ order'.status = "failed" := by
  have hp : parse_rtn_code form.RtnCode = some 0 := parse_rtn_code_blank _ hblank
  have heq := notify_return_eq_of_valid computeMac true now form db order 0
    hmtn hmac hord hp
  simp only [if_pos rfl, if_true] at heq
  refine ⟨_, notify_update order now form 0, heq, ?_, ?_, ?_⟩
  · have hpred := List.find?_some hord
    unfold findOrder
    exact find?_replaceOrder _ _ _ order
      (by rw [notify_update_merchant_trade_no]; exact hpred) hord
  · exact notify_update_rtn_code order now form 0
  · exact (notify_update_failed order now form 0 (by decide)).1

/-- Witness for C9 with a whitespace-only return code. -/
theorem C9_blank_rtn_code_marks_failed_witness :
    ∃ db' order',
      notify_return sampleMac true 9 sampleFormBlankRtn sampleDB = some ("1|OK", db') ∧
      findOrder db' (pyStrip (orDefault sampleFormBlankRtn.MerchantTradeNo ""))
        = some order' ∧
      order'.rtn_code = some 0 ∧ order'.status = "failed" :=
  C9_blank_rtn_code_marks_failed sampleMac 9 sampleFormBlankRtn sampleDB
    sampleOrderCreated (by decide) (by decide) (by decide)
    (Or.inr ⟨"   ", rfl, by decide⟩)

/-- A persisted download token owned by the sample paid order. -/
def sampleToken : DownloadToken :=
  { token := "tok123", order_id := 2, file_path := "/opt/app/generated/CT2.docx",
    created_at := 100, expires_at := 1000 }

/-- A store holding the paid order and its token. -/
def sampleDBPaid : DB := { orders := [sampleOrderPaid], tokens := [sampleToken] }

/-- C6: the download gate checks in order - token exists (else 404), token
not expired (else 410, regardless of the order's state or the file's
presence), owning order exists and is paid (else 403), file exists on disk
(else 404) - and only when every check passes does it stream the file as an
attachment named after the order's trade number. -/
theorem C6_download_gate
    (fileExists : String → Bool) (now : Nat) (tok : String) (db : DB) :
    (findToken db tok = none → download fileExists now tok db = .err 404) ∧
    (∀ dt, findToken db tok = some dt → dt.expires_at ≤ now →
      download fileExists now tok db = .err 410) ∧
    (∀ dt, findToken db tok = some dt → now < dt.expires_at →
      findOrderById db dt.order_id = none →
      download fileExists now tok db = .err 403) ∧
    (∀ dt order, findToken db tok = some dt → now < dt.expires_at →
      findOrderById db dt.order_id = some order → order.is_paid = false →
      download fileExists now tok db = .err 403) ∧
    (∀ dt order, findToken db tok = some dt → now < dt.expires_at →
      findOrderById db dt.order_id = some order → order.is_paid = true →
      fileExists dt.file_path = false →
      download fileExists now tok db = .err 404) ∧
    (∀ dt order, findToken db tok = some dt → now < dt.expires_at →
      findOrderById db dt.order_id = some order → order.is_paid = true →
      fileExists dt.file_path = true →
      download fileExists now tok db
        = .sendFile dt.file_path (order.merchant_trade_no ++ ".docx")) := by
  refine ⟨?_, ?_, ?_, ?_, ?_, ?_⟩
  · intro h
    simp [download, h]
  · intro dt h hexp
    simp [download, h, hexp]
  · intro dt h hlt hord
    simp [download, h, Nat.not_le.mpr hlt, hord]
  · intro dt order h hlt hord hpaid
    simp [download, h, Nat.not_le.mpr hlt, hord, hpaid]
  · intro dt order h hlt hord hpaid hfe
    simp [download, h, Nat.not_le.mpr hlt, hord, hpaid, hfe]
  · intro dt order h hlt hord hpaid hfe
    simp [download, h, Nat.not_le.mpr hlt, hord, hpaid, hfe]

/-- Witness for C6: the expired token yields 410 although its order is paid
and the file oracle says the file exists; rewinding the clock, the same
token streams the attachment named after the trade number. -/
theorem C6_download_gate_witness :
    download (fun _ => true) 1000 "tok123" sampleDBPaid = .err 410 ∧
    download (fun _ => true) 500 "tok123" sampleDBPaid
      = .sendFile sampleToken.file_path (sampleOrderPaid.merchant_trade_no ++ ".docx") :=
  ⟨(C6_download_gate (fun _ => true) 1000 "tok123" sampleDBPaid).2.1 sampleToken
     (by decide) (by decide),
   (C6_download_gate (fun _ => true) 500 "tok123" sampleDBPaid).2.2.2.2.2
     sampleToken sampleOrderPaid (by decide) (by decide) (by decide) (by decide) rfl⟩

/-- An update that preserves owner and creation time commutes with taking
the latest token. -/
theorem latestTokenAux_map (oid : Nat) (f : DownloadToken → DownloadToken)
    (hf1 : ∀ t, (f t).order_id = t.order_id)
    (hf2 : ∀ t, (f t).created_at = t.created_at) :
    ∀ (l : List DownloadToken) (acc : Option DownloadToken),
      latestTokenAux oid (acc.map f) (l.map f) = (latestTokenAux oid acc l).map f := by
  intro l
  induction l with
  | nil => intro acc; cases acc <;> rfl
  | cons t rest ih =>
    intro acc
    cases acc with
    | none =>
      simp only [Option.map_none', List.map_cons, latestTokenAux, hf1 t]
      by_cases ho : (t.order_id == oid) = true
      · rw [if_pos ho, if_pos ho]
        simpa using ih (some t)
      · rw [if_neg ho, if_neg ho]
        simpa using ih none
    | some a =>
      simp only [Option.map_some', List.map_cons, latestTokenAux, hf1 t, hf2 t, hf2 a]
      by_cases ho : (t.order_id == oid) = true
      · rw [if_pos ho, if_pos ho]
        by_cases hlt : a.created_at < t.created_at
        · rw [if_pos hlt, if_pos hlt]
          simpa using ih (some t)
        · rw [if_neg hlt, if_neg hlt]
          simpa using ih (some a)
      · rw [if_neg ho, if_neg ho]
        simpa using ih (some a)

/-- Appending a token of the order created strictly later than everything
already stored (and later than the accumulator) makes it the latest. -/
theorem latestTokenAux_append_newest (oid : Nat) (nt : DownloadToken)
    (hoid : (nt.order_id == oid) = true) :
    ∀ (l : List DownloadToken) (acc : Option DownloadToken),
      (∀ t ∈ l, t.order_id = oid → t.created_at < nt.created_at) →
      (acc = none ∨ ∃ a, acc = some a ∧ a.created_at < nt.created_at) →
      latestTokenAux oid acc (l ++ [nt]) = some nt := by
  intro l
  induction l with
  | nil =>
    intro acc _ hacc
    rcases hacc with h | ⟨a, ha, hlt⟩
    · subst h
      simp [latestTokenAux, hoid]
    · subst ha
      simp [latestTokenAux, hoid, hlt]
  | cons t rest ih =>
    intro acc hl hacc
    have hrest : ∀ u ∈ rest, u.order_id = oid → u.created_at < nt.created_at :=
      fun u hu => hl u (List.mem_cons_of_mem _ hu)
    have htmem := List.mem_cons_self t rest
    cases acc with
    | none =>
      simp only [List.cons_append, latestTokenAux]
      by_cases ho : (t.order_id == oid) = true
      · rw [if_pos ho]
        exact ih (some t) hrest (Or.inr ⟨t, rfl, hl t htmem (by simpa using ho)⟩)
      · rw [if_neg ho]
        exact ih none hrest (Or.inl rfl)
    | some a =>
      have hltacc : a.created_at < nt.created_at := by
        rcases hacc with h | ⟨a', ha', hlt⟩
        · exact absurd h (by simp)
        · obtain rfl : a = a' := Option.some.inj ha'
          exact hlt
      simp only [List.cons_append, latestTokenAux]
      by_cases ho : (t.order_id == oid) = true
      · rw [if_pos ho]
        by_cases hlt : a.created_at < t.created_at
        · rw [if_pos hlt]
          exact ih (some t) hrest (Or.inr ⟨t, rfl, hl t htmem (by simpa using ho)⟩)
        · rw [if_neg hlt]
          exact ih (some a) hrest (Or.inr ⟨a, rfl, hltacc⟩)
      · rw [if_neg ho]
        exact ih (some a) hrest (Or.inr ⟨a, rfl, hltacc⟩)

/-- After token issuance on a store whose tokens for the order were all
created strictly before `now`, the returned token is the latest one stored
for the order. -/
theorem latestTokenFor_after_create (newToken : String) (now ttl : Nat)
    (order : Order) (fp : String) (db : DB)
    (hfresh : ∀ t ∈ db.tokens, t.order_id = order.id → t.created_at < now) :
    latestTokenFor (create_or_get_token newToken now ttl order fp db).2 order.id
      = some (create_or_get_token newToken now ttl order fp db).1 := by
  cases hl : latestTokenFor db order.id with
  | none =>
    simp only [create_or_get_token, hl]
    unfold latestTokenFor
    exact latestTokenAux_append_newest order.id _ (by simp) db.tokens none
      (fun t ht hto => hfresh t ht hto) (Or.inl rfl)
  | some dt =>
    by_cases hexp : now < dt.expires_at
    · by_cases hfp : dt.file_path ≠ fp
      · simp only [create_or_get_token, hl, if_pos hexp, if_pos hfp]
        unfold latestTokenFor at hl ⊢
        have hmap := latestTokenAux_map order.id
          (fun t => if t.token == dt.token then { t with file_path := fp } else t)
          (fun t => by by_cases h : (t.token == dt.token) = true <;> simp [h])
          (fun t => by by_cases h : (t.token == dt.token) = true <;> simp [h])
          db.tokens none
        simp only [Option.map_none'] at hmap
        rw [hmap, hl]
        simp
      · simp only [create_or_get_token, hl, if_pos hexp, if_neg hfp]
    · simp only [create_or_get_token, hl, if_neg hexp]
      unfold latestTokenFor
      exact latestTokenAux_append_newest order.id _ (by simp) db.tokens none
        (fun t ht hto => hfresh t ht hto) (Or.inl rfl)

/-- When a live token exists, issuance returns its token string. -/
theorem create_or_get_token_reuse_token (newToken : String) (now ttl : Nat)
    (order : Order) (fp : String) (db : DB) (dt : DownloadToken)
    (hl : latestTokenFor db order.id = some dt) (hex : now < dt.expires_at) :
    (create_or_get_token newToken now ttl order fp db).1.token = dt.token := by
  by_cases hfp : dt.file_path ≠ fp
  · simp [create_or_get_token, hl, if_pos hex, if_pos hfp]
  · simp [create_or_get_token, hl, if_pos hex, if_neg hfp]

/-- When the latest token is missing or expired, issuance returns the fresh
token string. -/
theorem create_or_get_token_mint_token (newToken : String) (now ttl : Nat)
    (order : Order) (fp : String) (db : DB) (dt : DownloadToken)
    (hl : latestTokenFor db order.id = some dt) (hex : dt.expires_at ≤ now) :
    (create_or_get_token newToken now ttl order fp db).1.token = newToken := by
  simp [create_or_get_token, hl, if_neg (Nat.not_lt.mpr hex)]

/-- C7: token issuance inspects the most recently created token for the
order; a live one is reused - its token string is returned unchanged, its
stored path refreshed, the store gaining no row - so sequential result-page
views within the validity window yield the same token string; a missing or
expired latest token leads to a fresh token with a `ttl_hours`-hour validity
window (24 hours at the call site) being appended to the store, so a view
after expiry yields the newly minted token. -/
theorem C7_token_issuance
    (newToken newToken2 : String) (t1 t2 ttl : Nat) (order : Order)
    (fp fp2 : String) (db : DB) :
    (∀ dt, latestTokenFor db order.id = some dt → t1 < dt.expires_at →
      (create_or_get_token newToken t1 ttl order fp db).1.token = dt.token ∧
      (create_or_get_token newToken t1 ttl order fp db).1.file_path = fp ∧
      ((create_or_get_token newToken t1 ttl order fp db).2).tokens.length
        = db.tokens.length) ∧
    ((latestTokenFor db order.id = none ∨
      (∃ dt, latestTokenFor db order.id = some dt ∧ dt.expires_at ≤ t1)) →
      (create_or_get_token newToken t1 ttl order fp db).1 =
        { token := newToken, order_id := order.id, file_path := fp,
          created_at := t1, expires_at := t1 + ttl * 3600 } ∧
      ((create_or_get_token newToken t1 ttl order fp db).2).tokens
        = db.tokens ++ [(create_or_get_token newToken t1 ttl order fp db).1]) ∧
    ((∀ t ∈ db.tokens, t.order_id = order.id → t.created_at < t1) →
      ((t2 < (create_or_get_token newToken t1 ttl order fp db).1.expires_at →
        (create_or_get_token newToken2 t2 ttl order fp2
            (create_or_get_token newToken t1 ttl order fp db).2).1.token
          = (create_or_get_token newToken t1 ttl order fp db).1.token) ∧
       ((create_or_get_token newToken t1 ttl order fp db).1.expires_at ≤ t2 →
        (create_or_get_token newToken2 t2 ttl order fp2
            (create_or_get_token newToken t1 ttl order fp db).2).1.token
          = newToken2))) := by
  refine ⟨?_, ?_, ?_⟩
  · intro dt hl hex
    refine ⟨create_or_get_token_reuse_token newToken t1 ttl order fp db dt hl hex,
      ?_, ?_⟩
    · by_cases hfp : dt.file_path ≠ fp
      · simp [create_or_get_token, hl, if_pos hex, if_pos hfp]
      · simp only [create_or_get_token, hl, if_pos hex, if_neg hfp]
        exact not_ne_iff.mp hfp
    · by_cases hfp : dt.file_path ≠ fp
      · simp [create_or_get_token, hl, if_pos hex, if_pos hfp]
      · simp [create_or_get_token, hl, if_pos hex, if_neg hfp]
  · intro h
    rcases h with hl | ⟨dt, hl, hex⟩
    · simp only [create_or_get_token, hl]
      exact ⟨by trivial, by trivial⟩
    · simp only [create_or_get_token, hl, if_neg (Nat.not_lt.mpr hex)]
      exact ⟨by trivial, by trivial⟩
  · intro hfresh
    have hlat := latestTokenFor_after_create newToken t1 ttl order fp db hfresh
    exact ⟨fun hlt => create_or_get_token_reuse_token newToken2 t2 ttl order fp2 _ _
        hlat hlt,
      fun hge => create_or_get_token_mint_token newToken2 t2 ttl order fp2 _ _
        hlat hge⟩

/-- Witness for C7: with the live sample token, issuance at time 500 reuses
`tok123`; a second view at 900 (within the window) still yields the same
token string; a second view at time 90000 (after expiry) yields the fresh
token string. -/
theorem C7_token_issuance_witness :
    (create_or_get_token "new" 500 24 sampleOrderPaid "/f/x.docx" sampleDBPaid).1.token
      = "tok123" ∧
    (create_or_get_token "n2" 900 24 sampleOrderPaid "/f/x.docx"
        (create_or_get_token "new" 500 24 sampleOrderPaid "/f/x.docx" sampleDBPaid).2).1.token
      = (create_or_get_token "new" 500 24 sampleOrderPaid "/f/x.docx" sampleDBPaid).1.token ∧
    (create_or_get_token "n3" 90000 24 sampleOrderPaid "/f/x.docx"
        (create_or_get_token "new" 500 24 sampleOrderPaid "/f/x.docx" sampleDBPaid).2).1.token
      = "n3" :=
  ⟨((C7_token_issuance "new" "x" 500 0 24 sampleOrderPaid "/f/x.docx" "y"
      sampleDBPaid).1 sampleToken (by decide) (by decide)).1,
   ((C7_token_issuance "new" "n2" 500 900 24 sampleOrderPaid "/f/x.docx" "/f/x.docx"
      sampleDBPaid).2.2 (by decide)).1 (by decide),
   ((C7_token_issuance "new" "n3" 500 90000 24 sampleOrderPaid "/f/x.docx" "/f/x.docx"
      sampleDBPaid).2.2 (by decide)).2 (by decide)⟩

/-- A configuration with the five eagerly required keys present and no SDK
settings. -/
def sampleCfg : Config :=
  { ECPAY_MERCHANT_ID := some "M", ECPAY_SERVICE_URL := some "S",
    ECPAY_NOTIFY_URL := some "N", ECPAY_ORDER_RESULT_URL := some "R",
    ECPAY_CLIENT_BACK_URL := some "B" }

/-- Token issuance never touches the orders table. -/
theorem create_or_get_token_orders (newToken : String) (now ttl : Nat)
    (order : Order) (fp : String) (db : DB) :
    ((create_or_get_token newToken now ttl order fp db).2).orders = db.orders := by
  cases hl : latestTokenFor db order.id with
  | none => simp only [create_or_get_token, hl]
  | some dt =>
    by_cases h1 : now < dt.expires_at
    · by_cases h2 : dt.file_path ≠ fp
      · simp only [create_or_get_token, hl, if_pos h1, if_pos h2]
      · simp only [create_or_get_token, hl, if_pos h1, if_neg h2]
    · simp only [create_or_get_token, hl, if_neg h1]

/-- Token issuance either leaves the token table unchanged, refreshes one
stored file path, or appends one new row. -/
theorem create_or_get_token_tokens_shape (newToken : String) (now ttl : Nat)
    (order : Order) (fp : String) (db : DB) :
    ((create_or_get_token newToken now ttl order fp db).2).tokens = db.tokens ∨
    (∃ tk fp2, ((create_or_get_token newToken now ttl order fp db).2).tokens
      = db.tokens.map (fun t =>
          if t.token == tk then { t with file_path := fp2 } else t)) ∨
    (∃ nt, ((create_or_get_token newToken now ttl order fp db).2).tokens
      = db.tokens ++ [nt]) := by
  cases hl : latestTokenFor db order.id with
  | none =>
    simp only [create_or_get_token, hl]
    exact Or.inr (Or.inr ⟨_, rfl⟩)
  | some dt =>
    by_cases h1 : now < dt.expires_at
    · by_cases h2 : dt.file_path ≠ fp
      · simp only [create_or_get_token, hl, if_pos h1, if_pos h2]
        exact Or.inr (Or.inl ⟨dt.token, fp, rfl⟩)
      · simp only [create_or_get_token, hl, if_pos h1, if_neg h2]
        exact Or.inl (by trivial)
    · simp only [create_or_get_token, hl, if_neg h1]
      exact Or.inr (Or.inr ⟨_, rfl⟩)

/-- Stamping `delivered_at` on the first matched row (whose stamp was unset)
sets only that field on only that row. -/
theorem replaceOrder_delivered_frame (mtn : String) (now : Nat) :
    ∀ (l : List Order) (order : Order),
      l.find? (fun x => x.merchant_trade_no == mtn) = some order →
      order.delivered_at = none →
      List.Forall₂ (fun o o' => o' = o ∨
          (o.delivered_at = none ∧ o' = { o with delivered_at := some now }))
        l (replaceOrder mtn { order with delivered_at := some now } l) := by
  intro l
  induction l with
  | nil => intro order h _; simp [List.find?] at h
  | cons a rest ih =>
    intro order h hnone
    by_cases ha : (a.merchant_trade_no == mtn) = true
    · have hao : a = order := by
        have hfind : List.find? (fun x : Order => x.merchant_trade_no == mtn)
            (a :: rest) = some a := by
          simp [List.find?, ha]
        rw [hfind] at h
        exact Option.some.inj h
      subst hao
      simp only [replaceOrder, if_pos ha]
      exact List.Forall₂.cons (Or.inr ⟨hnone, rfl⟩)
        (List.forall₂_same.mpr (fun x _ => Or.inl rfl))
    · have ha' : (a.merchant_trade_no == mtn) = false := by
        cases hb : (a.merchant_trade_no == mtn)
        · rfl
        · exact absurd hb ha
      rw [List.find?_cons_of_neg _ (by simp [ha'])] at h
      simp only [replaceOrder, ha', Bool.false_eq_true, if_false]
      exact List.Forall₂.cons (Or.inl rfl) (ih order h hnone)

/-- C10: a result-page request for a found, paid order mutates the orders
table only by stamping `delivered_at` on that order (to now, only when it was
previously unset, and only when the stamp commit succeeds - a failed stamp
commit is rolled back and swallowed); the token table at most gets one stored
file path refreshed or one new row appended; and every order's status,
checkmac_valid, paid_at, amount and merchant_trade_no are untouched. -/
theorem C10_result_page_frame
    (cfg : Config) (fileExists : String → Bool) (newToken : String) (now : Nat)
    (commitDelivered : Bool) (mtn_raw : Option String) (db : DB) (order : Order)
    (u : String)
    (hcfg : require_cfg cfg.ECPAY_CLIENT_BACK_URL "ECPAY_CLIENT_BACK_URL" = .ok u)
    (hmtn : pyStrip (orDefault mtn_raw "") ≠ "")
    (hord : findOrder db (pyStrip (orDefault mtn_raw "")) = some order)
    (hpaid : order.is_paid = true) :
    List.Forall₂ (fun o o' => o' = o ∨
        (o.delivered_at = none ∧ o' = { o with delivered_at := some now }))
      db.orders
      ((order_result cfg fileExists newToken now commitDelivered mtn_raw db).2).orders ∧
    List.Forall₂ (fun o o' =>
        o'.status = o.status ∧ o'.checkmac_valid = o.checkmac_valid ∧
        o'.paid_at = o.paid_at ∧ o'.amount = o.amount ∧
        o'.merchant_trade_no = o.merchant_trade_no)
      db.orders
      ((order_result cfg fileExists newToken now commitDelivered mtn_raw db).2).orders ∧
    (((order_result cfg fileExists newToken now commitDelivered mtn_raw db).2).tokens
        = db.tokens ∨
     (∃ tk fp2,
       ((order_result cfg fileExists newToken now commitDelivered mtn_raw db).2).tokens
        = db.tokens.map (fun t =>
            if t.token == tk then { t with file_path := fp2 } else t)) ∨
     (∃ nt,
       ((order_result cfg fileExists newToken now commitDelivered mtn_raw db).2).tokens
        = db.tokens ++ [nt])) := by
  have hrefl : List.Forall₂ (fun o o' : Order => o' = o ∨
      (o.delivered_at = none ∧ o' = { o with delivered_at := some now }))
      db.orders db.orders :=
    List.forall₂_same.mpr (fun x _ => Or.inl rfl)
  have hmain :
      List.Forall₂ (fun o o' => o' = o ∨
        (o.delivered_at = none ∧ o' = { o with delivered_at := some now }))
        db.orders
        ((order_result cfg fileExists newToken now commitDelivered mtn_raw db).2).orders ∧
      (((order_result cfg fileExists newToken now commitDelivered mtn_raw db).2).tokens
          = db.tokens ∨
       (∃ tk fp2,
         ((order_result cfg fileExists newToken now commitDelivered mtn_raw db).2).tokens
          = db.tokens.map (fun t =>
              if t.token == tk then { t with file_path := fp2 } else t)) ∨
       (∃ nt,
         ((order_result cfg fileExists newToken now commitDelivered mtn_raw db).2).tokens
          = db.tokens ++ [nt])) := by
    simp only [order_result, hcfg, if_neg hmtn, hord, hpaid, Bool.not_true,
      Bool.false_eq_true, if_false]
    by_cases hfe : fileExists (cfg.GENERATED_FILES_PATH.getD "/opt/app/generated"
        ++ "/" ++ order.merchant_trade_no ++ ".docx") = true
    · simp only [if_pos hfe]
      by_cases hdel : order.delivered_at = none
      · simp only [if_pos hdel]
        cases commitDelivered with
        | false =>
          simp only [Bool.false_eq_true, if_false]
          exact ⟨by rw [create_or_get_token_orders]; exact hrefl,
            create_or_get_token_tokens_shape newToken now 24 order _ db⟩
        | true =>
          simp only [if_true]
          constructor
          · show List.Forall₂ _ db.orders (replaceOrder _ _ _)
            rw [create_or_get_token_orders]
            exact replaceOrder_delivered_frame _ now db.orders order hord hdel
          · exact create_or_get_token_tokens_shape newToken now 24 order _ db
      · simp only [if_neg hdel]
        exact ⟨by rw [create_or_get_token_orders]; exact hrefl,
          create_or_get_token_tokens_shape newToken now 24 order _ db⟩
    · simp only [if_neg hfe]
      by_cases hdel : order.delivered_at = none
      · simp only [if_pos hdel]
        cases commitDelivered with
        | false =>
          simp only [Bool.false_eq_true, if_false]
          exact ⟨hrefl, Or.inl (by trivial)⟩
        | true =>
          simp only [if_true]
          exact ⟨replaceOrder_delivered_frame _ now db.orders order hord hdel,
            Or.inl (by trivial)⟩
      · simp only [if_neg hdel]
        exact ⟨hrefl, Or.inl (by trivial)⟩
  refine ⟨hmain.1, ?_, hmain.2⟩
  refine hmain.1.imp (fun a b hab => ?_)
  rcases hab with rfl | ⟨_, rfl⟩
  · exact ⟨rfl, rfl, rfl, rfl, rfl⟩
  · exact ⟨rfl, rfl, rfl, rfl, rfl⟩

/-- Witness for C10: a result page for the sample paid order with the file
present, stamping `delivered_at` and reusing the stored token. -/
theorem C10_result_page_frame_witness :
    List.Forall₂ (fun o o' => o' = o ∨
        (o.delivered_at = none ∧ o' = { o with delivered_at := some 600 }))
      sampleDBPaid.orders
      ((order_result sampleCfg (fun _ => true) "new" 600 true (some "CT2")
          sampleDBPaid).2).orders ∧
    List.Forall₂ (fun o o' =>
        o'.status = o.status ∧ o'.checkmac_valid = o.checkmac_valid ∧
        o'.paid_at = o.paid_at ∧ o'.amount = o.amount ∧
        o'.merchant_trade_no = o.merchant_trade_no)
      sampleDBPaid.orders
      ((order_result sampleCfg (fun _ => true) "new" 600 true (some "CT2")
          sampleDBPaid).2).orders ∧
    (((order_result sampleCfg (fun _ => true) "new" 600 true (some "CT2")
          sampleDBPaid).2).tokens = sampleDBPaid.tokens ∨
     (∃ tk fp2,
       ((order_result sampleCfg (fun _ => true) "new" 600 true (some "CT2")
          sampleDBPaid).2).tokens
        = sampleDBPaid.tokens.map (fun t =>
            if t.token == tk then { t with file_path := fp2 } else t)) ∨
     (∃ nt,
       ((order_result sampleCfg (fun _ => true) "new" 600 true (some "CT2")
          sampleDBPaid).2).tokens = sampleDBPaid.tokens ++ [nt])) :=
  C10_result_page_frame sampleCfg (fun _ => true) "new" 600 true (some "CT2")
    sampleDBPaid sampleOrderPaid "B" rfl (by decide) (by decide) (by decide)

/-- The empty store. -/
def emptyDB : DB := { orders := [], tokens := [] }

/-- A configuration with full SDK settings and the prefix `ORDER`. -/
def sampleCfgFull : Config :=
  { sampleCfg with
    ECPAY_SDK_PATH := some "/sdk.py", ECPAY_HASH_KEY := some "K",
    ECPAY_HASH_IV := some "V", APP_TRADE_NO_PREFIX := some "ORDER" }

/-- The truncation to `n` characters yields at most `n` characters. -/
theorem pyTake_length_le (s : String) (n : Nat) : (pyTake s n).length ≤ n := by
  have h : (pyTake s n).length = (s.toList.take n).length := rfl
  rw [h, List.length_take]
  exact Nat.min_le_left n s.toList.length

/-- With the five eagerly required keys present and a well-formed amount, the
checkout builds one `created` order carrying the generated trade number and
commits it; only afterwards is the SDK client consulted, so an SDK
configuration error aborts after the commit, and on success the redirect
page is returned with the order already persisted. -/
theorem create_after_requires (cfg : Config) (sdkPathExists : String → Bool)
    (computeMac : List (String × String) → String) (epoch rand : Nat)
    (trade_date : String) (nextId : Nat) (form : CreateForm) (db : DB)
    (mID sURL nURL oURL cURL : String) (amount : Int)
    (hM : require_cfg cfg.ECPAY_MERCHANT_ID "ECPAY_MERCHANT_ID" = .ok mID)
    (hS : require_cfg cfg.ECPAY_SERVICE_URL "ECPAY_SERVICE_URL" = .ok sURL)
    (hN : require_cfg cfg.ECPAY_NOTIFY_URL "ECPAY_NOTIFY_URL" = .ok nURL)
    (hO : require_cfg cfg.ECPAY_ORDER_RESULT_URL "ECPAY_ORDER_RESULT_URL" = .ok oURL)
    (hC : require_cfg cfg.ECPAY_CLIENT_BACK_URL "ECPAY_CLIENT_BACK_URL" = .ok cURL)
    (hA : parse_amount form.amount = some amount) :
    ∃ o : Order, o.status = "created" ∧
      o.merchant_trade_no = gen_merchant_trade_no cfg.APP_TRADE_NO_PREFIX epoch rand ∧
      (∀ e, sdk_client_ok cfg sdkPathExists = .error e →
        create cfg sdkPathExists computeMac epoch rand trade_date nextId form db
          = (.cfgError e, { db with orders := db.orders ++ [o] })) ∧
      (∀ v, sdk_client_ok cfg sdkPathExists = .ok v →
        ∃ html, create cfg sdkPathExists computeMac epoch rand trade_date nextId form db
          = (.page html, { db with orders := db.orders ++ [o] })) := by
  refine ⟨{ id := nextId,
            merchant_trade_no := gen_merchant_trade_no cfg.APP_TRADE_NO_PREFIX epoch rand,
            app_code := pyStrip (cfg.APP_CODE.getD ""),
            product_code := none,
            item_name := pyStrip (orDefault form.item_name "One-time purchase"),
            amount := amount,
            status := "created",
            resume_url := some (if pyStrip (orDefault form.resume_url "") = "" then cURL
              else pyStrip (orDefault form.resume_url "")),
            payload_json := some (orDefault form.payload_json form.extra_json),
            checkmac_valid := false, rtn_code := none, rtn_msg := none,
            payment_type := none, ecpay_trade_no := none, is_simulated := false,
            created_at := epoch, paid_at := none, delivered_at := none },
    rfl, rfl, ?_, ?_⟩
  · intro e hsdk
    simp only [create, hM, hS, hN, hO, hC, hA, hsdk]
  · intro v hsdk
    refine ⟨auto_post_html sURL
      ([("MerchantID", mID),
        ("MerchantTradeNo", gen_merchant_trade_no cfg.APP_TRADE_NO_PREFIX epoch rand),
        ("MerchantTradeDate", trade_date), ("PaymentType", "aio"),
        ("TotalAmount", toString amount), ("TradeDesc", "One-time payment"),
        ("ItemName", pyStrip (orDefault form.item_name "One-time purchase")),
        ("ReturnURL", nURL), ("OrderResultURL", oURL), ("ClientBackURL", cURL),
        ("ChoosePayment", pyStrip (orDefault cfg.ECPAY_CHOOSE_PAYMENT "ALL")),
        ("EncryptType", "1")] ++
       [("CheckMacValue", computeMac
         [("MerchantID", mID),
          ("MerchantTradeNo", gen_merchant_trade_no cfg.APP_TRADE_NO_PREFIX epoch rand),
          ("MerchantTradeDate", trade_date), ("PaymentType", "aio"),
          ("TotalAmount", toString amount), ("TradeDesc", "One-time payment"),
          ("ItemName", pyStrip (orDefault form.item_name "One-time purchase")),
          ("ReturnURL", nURL), ("OrderResultURL", oURL), ("ClientBackURL", cURL),
          ("ChoosePayment", pyStrip (orDefault cfg.ECPAY_CHOOSE_PAYMENT "ALL")),
          ("EncryptType", "1")])]), ?_⟩
    simp only [create, hM, hS, hN, hO, hC, hA, hsdk]

/-- Counterexample to C4: with the required configuration key
`ECPAY_SDK_PATH` missing (the five URL-side keys present), the checkout still
aborts with the fatal configuration error, but an order row has already been
committed - the resulting store is no longer empty. -/
theorem C4_counterexample :
    (create sampleCfg (fun _ => true) (fun _ => "MAC") 1700000000 7
        "2026/10/12 00:00:00" 1 {} emptyDB).1
      = .cfgError "Missing config: ECPAY_SDK_PATH" ∧
    ((create sampleCfg (fun _ => true) (fun _ => "MAC") 1700000000 7
        "2026/10/12 00:00:00" 1 {} emptyDB).2).orders ≠ [] :=
  ⟨rfl, by decide⟩

/-- C4 (amended): a missing merchant id, service URL, or any of the three
callback URLs aborts the checkout with a fatal configuration error before any
order is persisted (store unchanged); a missing or unusable SDK path, hash
key, or hash IV also aborts checkout with a fatal configuration error, but
only after the order row has been committed. -/
theorem C4_config_abort
    (cfg : Config) (sdkPathExists : String → Bool)
    (computeMac : List (String × String) → String) (epoch rand : Nat)
    (trade_date : String) (nextId : Nat) (form : CreateForm) (db : DB) :
    (((∃ e, require_cfg cfg.ECPAY_MERCHANT_ID "ECPAY_MERCHANT_ID" = .error e) ∨
      (∃ e, require_cfg cfg.ECPAY_SERVICE_URL "ECPAY_SERVICE_URL" = .error e) ∨
      (∃ e, require_cfg cfg.ECPAY_NOTIFY_URL "ECPAY_NOTIFY_URL" = .error e) ∨
      (∃ e, require_cfg cfg.ECPAY_ORDER_RESULT_URL "ECPAY_ORDER_RESULT_URL" = .error e) ∨
      (∃ e, require_cfg cfg.ECPAY_CLIENT_BACK_URL "ECPAY_CLIENT_BACK_URL" = .error e)) →
      ∃ e, create cfg sdkPathExists computeMac epoch rand trade_date nextId form db
        = (.cfgError e, db)) ∧
    (∀ mID sURL nURL oURL cURL amount e,
      require_cfg cfg.ECPAY_MERCHANT_ID "ECPAY_MERCHANT_ID" = .ok mID →
      require_cfg cfg.ECPAY_SERVICE_URL "ECPAY_SERVICE_URL" = .ok sURL →
      require_cfg cfg.ECPAY_NOTIFY_URL "ECPAY_NOTIFY_URL" = .ok nURL →
      require_cfg cfg.ECPAY_ORDER_RESULT_URL "ECPAY_ORDER_RESULT_URL" = .ok oURL →
      require_cfg cfg.ECPAY_CLIENT_BACK_URL "ECPAY_CLIENT_BACK_URL" = .ok cURL →
      parse_amount form.amount = some amount →
      sdk_client_ok cfg sdkPathExists = .error e →
      ∃ o : Order, o.status = "created" ∧
        create cfg sdkPathExists computeMac epoch rand trade_date nextId form db
          = (.cfgError e, { db with orders := db.orders ++ [o] })) := by
  constructor
  · intro hdisj
    cases hM : require_cfg cfg.ECPAY_MERCHANT_ID "ECPAY_MERCHANT_ID" with
    | error e => exact ⟨e, by simp only [create, hM]⟩
    | ok mID =>
      cases hS : require_cfg cfg.ECPAY_SERVICE_URL "ECPAY_SERVICE_URL" with
      | error e => exact ⟨e, by simp only [create, hM, hS]⟩
      | ok sURL =>
        cases hN : require_cfg cfg.ECPAY_NOTIFY_URL "ECPAY_NOTIFY_URL" with
        | error e => exact ⟨e, by simp only [create, hM, hS, hN]⟩
        | ok nURL =>
          cases hO : require_cfg cfg.ECPAY_ORDER_RESULT_URL "ECPAY_ORDER_RESULT_URL" with
          | error e => exact ⟨e, by simp only [create, hM, hS, hN, hO]⟩
          | ok oURL =>
            cases hC : require_cfg cfg.ECPAY_CLIENT_BACK_URL "ECPAY_CLIENT_BACK_URL" with
            | error e => exact ⟨e, by simp only [create, hM, hS, hN, hO, hC]⟩
            | ok cURL =>
              exfalso
              rcases hdisj with ⟨e, h⟩ | ⟨e, h⟩ | ⟨e, h⟩ | ⟨e, h⟩ | ⟨e, h⟩ <;>
                simp_all
  · intro mID sURL nURL oURL cURL amount e hM hS hN hO hC hA hsdk
    obtain ⟨o, ho1, _, hfn, _⟩ := create_after_requires cfg sdkPathExists computeMac
      epoch rand trade_date nextId form db mID sURL nURL oURL cURL amount
      hM hS hN hO hC hA
    exact ⟨o, ho1, hfn e hsdk⟩

/-- Witness for the amended C4: a missing client-back URL aborts with the
store untouched; with the five keys present but no SDK path, the abort comes
with the order row already appended. -/
theorem C4_config_abort_witness :
    (∃ e, create { sampleCfg with ECPAY_CLIENT_BACK_URL := none } (fun _ => true)
        (fun _ => "MAC") 1700000000 7 "d" 1 {} emptyDB = (.cfgError e, emptyDB)) ∧
    (∃ o : Order, o.status = "created" ∧
      create sampleCfg (fun _ => true) (fun _ => "MAC") 1700000000 7 "d" 1 {}
          emptyDB
        = (.cfgError "Missing config: ECPAY_SDK_PATH",
           { emptyDB with orders := emptyDB.orders ++ [o] })) :=
  ⟨(C4_config_abort { sampleCfg with ECPAY_CLIENT_BACK_URL := none } (fun _ => true)
      (fun _ => "MAC") 1700000000 7 "d" 1 {} emptyDB).1
      (Or.inr (Or.inr (Or.inr (Or.inr ⟨"Missing config: ECPAY_CLIENT_BACK_URL", rfl⟩)))),
   (C4_config_abort sampleCfg (fun _ => true) (fun _ => "MAC") 1700000000 7 "d" 1 {}
      emptyDB).2 "M" "S" "N" "R" "B" 50 "Missing config: ECPAY_SDK_PATH"
      rfl rfl rfl rfl rfl rfl rfl⟩

/-- Counterexample to C8: with configured prefix `ORDER` the generated trade
number starts with the sanitized 4-character prefix `ORDE`, not the
configured prefix followed by the timestamp and suffix. -/
theorem C8_counterexample :
    gen_merchant_trade_no (some "ORDER") 1700000000 7
      ≠ spec_trade_no "ORDER" 1700000000 7 := by decide

/-- C8 (amended): the generated merchant trade number is the spec's
prefix-timestamp-2-digit-suffix shape applied to the sanitized configured
prefix (stripped, alphanumeric characters only, at most the first 4), it is
at most 20 characters long, and on a successful checkout the order is
committed with status `created` and this trade number before the redirect
page is returned. -/
theorem C8_trade_no_shape_and_persist
    (cfg : Config) (sdkPathExists : String → Bool)
    (computeMac : List (String × String) → String) (epoch rand : Nat)
    (trade_date : String) (nextId : Nat) (form : CreateForm) (db : DB) :
    gen_merchant_trade_no cfg.APP_TRADE_NO_PREFIX epoch rand
      = spec_trade_no (String.mk (((pyStrip (orDefault cfg.APP_TRADE_NO_PREFIX
          "NO")).toList.filter Char.isAlphanum).take 4)) epoch rand ∧
    (gen_merchant_trade_no cfg.APP_TRADE_NO_PREFIX epoch rand).length ≤ 20 ∧
    (∀ html db', create cfg sdkPathExists computeMac epoch rand trade_date nextId
        form db = (.page html, db') →
      ∃ o : Order, db'.orders = db.orders ++ [o] ∧ o.status = "created" ∧
        o.merchant_trade_no
          = gen_merchant_trade_no cfg.APP_TRADE_NO_PREFIX epoch rand) := by
  refine ⟨rfl, pyTake_length_le _ 20, ?_⟩
  intro html db' h
  cases hM : require_cfg cfg.ECPAY_MERCHANT_ID "ECPAY_MERCHANT_ID" with
  | error e =>
    rw [show create cfg sdkPathExists computeMac epoch rand trade_date nextId form db
        = (.cfgError e, db) from by simp only [create, hM]] at h
    exact absurd (congrArg Prod.fst h) (by simp)
  | ok mID =>
  cases hS : require_cfg cfg.ECPAY_SERVICE_URL "ECPAY_SERVICE_URL" with
  | error e =>
    rw [show create cfg sdkPathExists computeMac epoch rand trade_date nextId form db
        = (.cfgError e, db) from by simp only [create, hM, hS]] at h
    exact absurd (congrArg Prod.fst h) (by simp)
  | ok sURL =>
  cases hN : require_cfg cfg.ECPAY_NOTIFY_URL "ECPAY_NOTIFY_URL" with
  | error e =>
    rw [show create cfg sdkPathExists computeMac epoch rand trade_date nextId form db
        = (.cfgError e, db) from by simp only [create, hM, hS, hN]] at h
    exact absurd (congrArg Prod.fst h) (by simp)
  | ok nURL =>
  cases hO : require_cfg cfg.ECPAY_ORDER_RESULT_URL "ECPAY_ORDER_RESULT_URL" with
  | error e =>
    rw [show create cfg sdkPathExists computeMac epoch rand trade_date nextId form db
        = (.cfgError e, db) from by simp only [create, hM, hS, hN, hO]] at h
    exact absurd (congrArg Prod.fst h) (by simp)
  | ok oURL =>
  cases hC : require_cfg cfg.ECPAY_CLIENT_BACK_URL "ECPAY_CLIENT_BACK_URL" with
  | error e =>
    rw [show create cfg sdkPathExists computeMac epoch rand trade_date nextId form db
        = (.cfgError e, db) from by simp only [create, hM, hS, hN, hO, hC]] at h
    exact absurd (congrArg Prod.fst h) (by simp)
  | ok cURL =>
  cases hA : parse_amount form.amount with
  | none =>
    rw [show create cfg sdkPathExists computeMac epoch rand trade_date nextId form db
        = (.exn, db) from by simp only [create, hM, hS, hN, hO, hC, hA]] at h
    exact absurd (congrArg Prod.fst h) (by simp)
  | some amount =>
  obtain ⟨o, ho1, ho2, hfn, hok⟩ := create_after_requires cfg sdkPathExists computeMac
    epoch rand trade_date nextId form db mID sURL nURL oURL cURL amount
    hM hS hN hO hC hA
  cases hsdk : sdk_client_ok cfg sdkPathExists with
  | error e =>
    rw [hfn e hsdk] at h
    exact absurd (congrArg Prod.fst h) (by simp)
  | ok v =>
    obtain ⟨html0, heq⟩ := hok v hsdk
    rw [heq] at h
    have h2 : ({ db with orders := db.orders ++ [o] } : DB) = db' :=
      congrArg Prod.snd h
    exact ⟨o, by rw [← h2], ho1, ho2⟩

/-- Witness for the amended C8 at the prefix `ORDER`, epoch 1700000000,
suffix 07, with a successful checkout persisting the order. -/
theorem C8_trade_no_shape_and_persist_witness :
    gen_merchant_trade_no sampleCfgFull.APP_TRADE_NO_PREFIX 1700000000 7
      = spec_trade_no (String.mk (((pyStrip (orDefault
          sampleCfgFull.APP_TRADE_NO_PREFIX "NO")).toList.filter
          Char.isAlphanum).take 4)) 1700000000 7 ∧
    (gen_merchant_trade_no sampleCfgFull.APP_TRADE_NO_PREFIX 1700000000 7).length ≤ 20 ∧
    ∃ o : Order,
      ((create sampleCfgFull (fun _ => true) (fun _ => "MAC") 1700000000 7 "d" 1 {}
          emptyDB).2).orders = emptyDB.orders ++ [o] ∧
      o.status = "created" ∧
      o.merchant_trade_no
        = gen_merchant_trade_no sampleCfgFull.APP_TRADE_NO_PREFIX 1700000000 7 := by
  obtain ⟨h1, h2, h3⟩ := C8_trade_no_shape_and_persist sampleCfgFull (fun _ => true)
    (fun _ => "MAC") 1700000000 7 "d" 1 {} emptyDB
  exact ⟨h1, h2, h3 _ _ rfl⟩

end Ecpay
